import Mathlib

/-!
Verification development for the grpc-proxier request pipeline.

The definitions below are a shallow embedding of the Rust sources:
  - src/error.rs   : ProxyError, grpc_status_code, auth_failure_reason,
                     to_grpc_response, percent_encode
  - src/auth.rs    : authenticate, authorize
  - src/proxy.rs   : handle_request, handle_request_inner, parse_grpc_path
  - src/config.rs  : Config, UserConfig, Credentials

Machine integers: the only numeric code is a u8 gRPC status (values 7..16),
embedded as Nat since no arithmetic is performed on it.  Bytes are embedded
as Nat values below 256.  External crates (argon2, base64, std UTF-8
validation, hyper URI parsing and the hyper transport) are abstracted as
explicit function parameters; everything written in the repository itself is
translated concretely.
-/

set_option autoImplicit false

namespace GrpcProxier

/-- The error enum of src/error.rs (`ProxyError`). -/
inductive ProxyError where
  | ConfigLoad (msg : String)
  | CredentialsLoad (msg : String)
  | AuthMissing
  | AuthInvalid
  | AuthDenied (msg : String)
  | UpstreamConnect (msg : String)
  | UpstreamRequest (msg : String)
  | ServerBind (msg : String)
  deriving DecidableEq, Repr

/-- `ProxyError::grpc_status_code` from src/error.rs.  The Rust return type
is u8; the values are constants 7..16 so Nat is a faithful embedding. -/
def ProxyError.grpc_status_code : ProxyError → Nat
  | .AuthMissing => 16
  | .AuthInvalid => 16
  | .AuthDenied _ => 7
  | .UpstreamConnect _ => 14
  | .UpstreamRequest _ => 13
  | .ConfigLoad _ => 13
  | .CredentialsLoad _ => 13
  | .ServerBind _ => 13

/-- `ProxyError::auth_failure_reason` from src/error.rs. -/
def ProxyError.auth_failure_reason : ProxyError → String
  | .AuthMissing => "missing"
  | .AuthInvalid => "invalid"
  | .AuthDenied _ => "denied"
  | _ => "unknown"

/-- The `thiserror` Display strings of `ProxyError` (src/error.rs attributes),
used by `to_grpc_response` via `self.to_string()`. -/
def ProxyError.toMessage : ProxyError → String
  | .ConfigLoad m => "failed to load config: " ++ m
  | .CredentialsLoad m => "failed to load credentials: " ++ m
  | .AuthMissing => "missing authorization header"
  | .AuthInvalid => "invalid credentials"
  | .AuthDenied m => "call not permitted: " ++ m
  | .UpstreamConnect m => "upstream connection failed: " ++ m
  | .UpstreamRequest m => "upstream request failed: " ++ m
  | .ServerBind m => "failed to bind server: " ++ m

/-! ## Percent encoding (src/error.rs, `percent_encode`) -/

/-- Uppercase hexadecimal digit for a value below 16, as produced by the
Rust format specifier `02X`. -/
def hexDigit (n : Nat) : Char :=
  if n < 10 then Char.ofNat (48 + n) else Char.ofNat (55 + n)

/-- The first match arm of `percent_encode`: ASCII upper and lower letters,
digits, and the bytes of the four marks dash, underscore, dot, tilde. -/
def isUnreservedByte (b : Nat) : Bool :=
  (65 ≤ b && b ≤ 90) || (97 ≤ b && b ≤ 122) || (48 ≤ b && b ≤ 57) ||
    b == 45 || b == 95 || b == 46 || b == 126

/-- Output characters contributed by one input byte of `percent_encode`. -/
def encodeByte (b : Nat) : List Char :=
  if isUnreservedByte b then [Char.ofNat b]
  else if b == 32 then ['%', '2', '0']
  else ['%', hexDigit (b / 16), hexDigit (b % 16)]

/-- `percent_encode` from src/error.rs.  The Rust function iterates
`s.bytes()`, the UTF-8 bytes of the input; the embedding takes that byte
sequence directly. -/
def percent_encode (bytes : List Nat) : String :=
  String.mk (bytes.flatMap encodeByte)

/-- Value of a hexadecimal digit character, accepting both cases
(standard percent-decoding). -/
def hexVal (c : Char) : Option Nat :=
  if 48 ≤ c.toNat && c.toNat ≤ 57 then some (c.toNat - 48)
  else if 65 ≤ c.toNat && c.toNat ≤ 70 then some (c.toNat - 55)
  else if 97 ≤ c.toNat && c.toNat ≤ 102 then some (c.toNat - 87)
  else none

/-- Standard percent-decoding of a character sequence back to bytes: a
percent sign followed by two hexadecimal digits yields that byte, any other
character yields its own code point.  Used to state reversibility of
`percent_encode`. -/
def percentDecode : List Char → Option (List Nat)
  | [] => some []
  | c :: rest =>
    if c = '%' then
      match rest with
      | h :: l :: rest2 =>
        match hexVal h, hexVal l, percentDecode rest2 with
        | some hi, some lo, some tail => some ((16 * hi + lo) :: tail)
        | _, _, _ => none
      | _ => none
    else
      match percentDecode rest with
      | some tail => some (c.toNat :: tail)
      | none => none

/-! ## gRPC path parsing (src/proxy.rs, `parse_grpc_path`) -/

/-- `path.strip_prefix('/').unwrap_or(path)`: drop exactly one leading
slash when present, leave the string unchanged otherwise. -/
def stripLeadingSlash (s : String) : String :=
  match s.data with
  | '/' :: rest => String.mk rest
  | _ => s

/-- Helper for `rsplit_once`: split a character list at the LAST occurrence
of the separator, returning the pieces before and after it. -/
def rsplitOnceAux (sep : Char) : List Char → Option (List Char × List Char)
  | [] => none
  | c :: rest =>
    match rsplitOnceAux sep rest with
    | some (l, r) => some (c :: l, r)
    | none => if c = sep then some ([], rest) else none

/-- Rust `str::rsplit_once`: split at the last occurrence of the
separator. -/
def rsplit_once (sep : Char) (s : String) : Option (String × String) :=
  match rsplitOnceAux sep s.data with
  | some (l, r) => some (String.mk l, String.mk r)
  | none => none

/-- `parse_grpc_path` from src/proxy.rs. -/
def parse_grpc_path (path : String) : String × String :=
  let trimmed := stripLeadingSlash path
  match rsplit_once '/' trimmed with
  | some (service, method) => (service, method)
  | none => (trimmed, "unknown")

/-! ## Configuration and credentials (src/config.rs)

The socket-address fields of `Config` (listen_address, metrics_address) are
not consumed by the request pipeline and are omitted.  The Rust HashMaps
have unique keys; they are embedded as association lists with first-match
lookup. -/

/-- `UserConfig` from src/config.rs. -/
structure UserConfig where
  allowed_calls : List String
  deriving DecidableEq, Repr

/-- `Config` from src/config.rs, restricted to the fields the pipeline
reads. -/
structure Config where
  upstream_address : String
  users : List (String × UserConfig)
  deriving DecidableEq, Repr

/-- `Credentials` from src/config.rs: username to stored password hash. -/
structure Credentials where
  users : List (String × String)
  deriving DecidableEq, Repr

/-! ## Authentication (src/auth.rs, `authenticate`)

The argon2 and base64 crates are external; their entry points used by
`authenticate` are abstracted as function parameters:
  - `b64decode`  : `base64::STANDARD.decode`, yielding raw bytes or failing;
  - `utf8decode` : `String::from_utf8`, yielding text or failing;
  - `parseHash`  : `PasswordHash::new` on the stored hash string;
  - `verifyPassword` : `Argon2::default().verify_password`. -/

/-- Opaque stand-in for a parsed argon2 `PasswordHash` value. -/
structure ParsedHash where
  raw : String
  deriving DecidableEq, Repr

/-- Remove a literal leading character sequence, or fail. -/
def dropLeading : List Char → List Char → Option (List Char)
  | [], rest => some rest
  | _ :: _, [] => none
  | p :: ps, c :: cs => if c = p then dropLeading ps cs else none

/-- `auth_header.strip_prefix("Basic ")`: the remainder after the literal
Basic scheme tag, or failure. -/
def dropBasicTag (s : String) : Option String :=
  (dropLeading ('B' :: 'a' :: 's' :: 'i' :: 'c' :: ' ' :: []) s.data).map
    String.mk

/-- Rust `str::trim`, which removes leading and trailing whitespace.  The
inputs it receives in this code are header-value text (tab and visible
ASCII only), on which the ASCII whitespace set is exhaustive. -/
def rustTrim (s : String) : String :=
  String.mk
    (((s.data.dropWhile Char.isWhitespace).reverse.dropWhile
        Char.isWhitespace).reverse)

/-- Helper for `split_once`: split a character list at the FIRST occurrence
of the separator. -/
def splitOnceAux (sep : Char) : List Char → Option (List Char × List Char)
  | [] => none
  | c :: rest =>
    if c = sep then some ([], rest)
    else
      match splitOnceAux sep rest with
      | some (l, r) => some (c :: l, r)
      | none => none

/-- Rust `str::split_once`: split at the first occurrence of the
separator. -/
def split_once (sep : Char) (s : String) : Option (String × String) :=
  match splitOnceAux sep s.data with
  | some (l, r) => some (String.mk l, String.mk r)
  | none => none

/-- `authenticate` from src/auth.rs.  Every failure of the chain maps to
`AuthInvalid`; success returns the verified username. -/
def authenticate (b64decode : String → Option (List Nat))
    (utf8decode : List Nat → Option String)
    (parseHash : String → Option ParsedHash)
    (verifyPassword : String → ParsedHash → Bool)
    (auth_header : String) (credentials : Credentials) :
    Except ProxyError String :=
  match dropBasicTag auth_header with
  | none => .error .AuthInvalid
  | some encoded =>
    match b64decode (rustTrim encoded) with
    | none => .error .AuthInvalid
    | some decoded =>
      match utf8decode decoded with
      | none => .error .AuthInvalid
      | some decoded_str =>
        match split_once ':' decoded_str with
        | none => .error .AuthInvalid
        | some (username, password) =>
          match List.lookup username credentials.users with
          | none => .error .AuthInvalid
          | some stored_hash =>
            match parseHash stored_hash with
            | none => .error .AuthInvalid
            | some parsed_hash =>
              if verifyPassword password parsed_hash then .ok username
              else .error .AuthInvalid

/-! ## Authorization (src/auth.rs, `authorize`) -/

/-- `authorize` from src/auth.rs.  The Rust loop over `allowed_calls`
returning Ok on the first entry equal to the wildcard or to the normalized
call is embedded with `List.any`. -/
def authorize (username : String) (grpc_path : String) (config : Config) :
    Except ProxyError Unit :=
  match List.lookup username config.users with
  | none =>
    .error (.AuthDenied ("no config for user '" ++ username ++ "'"))
  | some user_config =>
    let call := stripLeadingSlash grpc_path
    if user_config.allowed_calls.any (fun allowed => allowed == "*" || allowed == call)
    then .ok ()
    else
      .error (.AuthDenied
        ("user '" ++ username ++ "' not allowed to call '" ++ call ++ "'"))

/-! ## HTTP model (http / hyper types used by src/proxy.rs)

Requests and responses carry a header list of lowercase names (the http
crate normalizes header names to lowercase) mapped to raw value bytes, an
arbitrary body type, and for requests a method and a URI.  The incoming
URI type records the path and the optional query component, mirroring what
`http::Uri` exposes through `path()` and `query()`; the upstream URI type
produced by `.parse()` is abstract. -/

/-- The incoming request URI: path component plus optional query. -/
structure Uri where
  path : String
  query : Option String
  deriving DecidableEq, Repr

/-- The full path-and-query string of a URI, as the spec describes the
forwarded target preserving both (refinement-side definition for claim
comparison). -/
def Uri.pathAndQuery (u : Uri) : String :=
  match u.query with
  | some q => u.path ++ "?" ++ q
  | none => u.path

/-- An HTTP request with URI type `υ` and body type `β`. -/
structure Request (υ β : Type) where
  method : String
  uri : υ
  headers : List (String × List Nat)
  body : β
  deriving DecidableEq, Repr

/-- An HTTP response with body type `γ`. -/
structure Response (γ : Type) where
  status : Nat
  headers : List (String × List Nat)
  body : γ
  deriving DecidableEq, Repr

/-- `HeaderMap::get`: the first value stored under a name. -/
def headerGet (name : String) (headers : List (String × List Nat)) :
    Option (List Nat) :=
  (headers.find? (fun p => p.1 == name)).map Prod.snd

/-- `HeaderMap::remove`: drop every value stored under a name. -/
def headerRemove (name : String) (headers : List (String × List Nat)) :
    List (String × List Nat) :=
  headers.filter (fun p => p.1 != name)

/-- A byte the http crate treats as visible ASCII in a header value
(`HeaderValue::to_str` accepts bytes 32..126 and horizontal tab). -/
def isVisibleAsciiByte (b : Nat) : Bool :=
  b == 9 || (32 ≤ b && b < 127)

/-- `HeaderValue::to_str`: the value as text when every byte is visible
ASCII, failure otherwise. -/
def headerToStr (bytes : List Nat) : Option String :=
  if bytes.all isVisibleAsciiByte then
    some (String.mk (bytes.map Char.ofNat))
  else none

/-- UTF-8 encoding of one character (code point to 1..4 bytes). -/
def utf8EncodeChar (c : Char) : List Nat :=
  let n := c.toNat
  if n < 128 then [n]
  else if n < 2048 then [192 + n / 64, 128 + n % 64]
  else if n < 65536 then
    [224 + n / 4096, 128 + (n / 64) % 64, 128 + n % 64]
  else
    [240 + n / 262144, 128 + (n / 4096) % 64, 128 + (n / 64) % 64,
      128 + n % 64]

/-- The UTF-8 bytes of a string (Rust `str::bytes` / `String::as_bytes`). -/
def stringBytes (s : String) : List Nat :=
  s.data.flatMap utf8EncodeChar

/-- The error type of the abstract hyper transport
(`hyper_util::client::legacy::Error`).  `connectFailure` records whether
the underlying cause was a failure to establish the connection — a
distinction the error value carries but `handle_request_inner` never
inspects; `msg` is its Display rendering (`e.to_string()`). -/
structure TransportError where
  connectFailure : Bool
  msg : String
  deriving DecidableEq, Repr

/-- `AppState` from src/proxy.rs: configuration, credential store, bypass
flag, and the upstream client.  The client is the abstract transport: a
function from the built upstream request to a response or a transport
error.  The metrics handles live outside the embedding; metric updates are
returned as an event list by `handle_request`. -/
structure AppState (υ2 β γ : Type) where
  config : Config
  credentials : Credentials
  skip_auth : Bool
  upstream_client : Request υ2 β → Except TransportError (Response γ)

/-- External pure dependencies of the authentication chain (argon2,
base64, std UTF-8 validation), packaged for threading through the
pipeline. -/
structure CryptoDeps where
  b64decode : String → Option (List Nat)
  utf8decode : List Nat → Option String
  parseHash : String → Option ParsedHash
  verifyPassword : String → ParsedHash → Bool

/-- `ProxyError::to_grpc_response` from src/error.rs: transport status 200,
gRPC content type, the decimal status code, and the percent-encoded
message, with an empty body. -/
def ProxyError.to_grpc_response (e : ProxyError) : Response (List Nat) :=
  { status := 200
    headers :=
      [("content-type", stringBytes "application/grpc"),
       ("grpc-status", stringBytes (toString e.grpc_status_code)),
       ("grpc-message", stringBytes (percent_encode (stringBytes e.toMessage)))]
    body := [] }

/-- The target string built by `handle_request_inner` before URI parsing:
the literal scheme, the configured upstream address, and the path. -/
def rewrittenTarget (upstream_address path : String) : String :=
  "http://" ++ upstream_address ++ path

/-- The `let username = if state.skip_auth ... else ...` block of
`handle_request_inner` (src/proxy.rs lines 99-116): bypass yields the fixed
pseudo-user, otherwise the authorization header is fetched and read as
text (absence or unreadable bytes giving `AuthMissing`), then
authentication and authorization run. -/
def auth_stage {β : Type} (crypto : CryptoDeps) (req : Request Uri β)
    (config : Config) (credentials : Credentials) (skip_auth : Bool)
    (path : String) : Except ProxyError String :=
  if skip_auth then .ok "Anonymous"
  else
    match (headerGet "authorization" req.headers).bind headerToStr with
    | none => .error .AuthMissing
    | some auth_header =>
      match authenticate crypto.b64decode crypto.utf8decode crypto.parseHash
          crypto.verifyPassword auth_header credentials with
      | .error e => .error e
      | .ok username =>
        match authorize username path config with
        | .error e => .error e
        | .ok _ => .ok username

/-- The upstream request built by `handle_request_inner`:
`req.into_parts()`, URI replaced by the parsed upstream URI, the
authorization header removed, everything else reassembled unchanged. -/
def build_upstream_request {υ2 β : Type} (req : Request Uri β)
    (upstream_uri : υ2) : Request υ2 β :=
  { method := req.method
    uri := upstream_uri
    headers := headerRemove "authorization" req.headers
    body := req.body }

/-- `handle_request_inner` from src/proxy.rs.  `parseUri` abstracts
`str::parse::<Uri>()` on the rewritten target; the upstream client is
invoked on the built upstream request, and any transport error is mapped
to `UpstreamRequest` of its message. -/
def handle_request_inner {υ2 β γ : Type} (crypto : CryptoDeps)
    (parseUri : String → Except String υ2) (req : Request Uri β)
    (state : AppState υ2 β γ) (path : String) :
    Except ProxyError (Response γ × String) :=
  match auth_stage crypto req state.config state.credentials state.skip_auth path with
  | .error e => .error e
  | .ok username =>
    match parseUri (rewrittenTarget state.config.upstream_address path) with
    | .error e => .error (.UpstreamConnect ("invalid upstream URI: " ++ e))
    | .ok upstream_uri =>
      match state.upstream_client (build_upstream_request req upstream_uri) with
      | .error e => .error (.UpstreamRequest e.msg)
      | .ok response => .ok (response, username)

/-- One update to the metrics state, in the order src/proxy.rs performs
them. -/
inductive MetricEvent where
  | observeDuration
  | incRequestsTotal (user service method status : String)
  | incAuthFailures (reason : String)
  | incUpstreamErrors
  deriving DecidableEq, Repr

/-- Whether an event is an increment of the requests_total counter. -/
def MetricEvent.isIncRequests : MetricEvent → Bool
  | .incRequestsTotal _ _ _ _ => true
  | _ => false

/-- Whether an event is an increment of the auth_failures_total counter. -/
def MetricEvent.isIncAuthFailures : MetricEvent → Bool
  | .incAuthFailures _ => true
  | _ => false

/-- Whether an event is an increment of the upstream_errors_total
counter. -/
def MetricEvent.isIncUpstreamErrors : MetricEvent → Bool
  | .incUpstreamErrors => true
  | _ => false

/-- `handle_request` from src/proxy.rs.  Returns the response (success
bodies on the left of the sum, synthetic error bodies on the right,
matching `Either<Incoming, Full<Bytes>>`) together with the metric events
in program order.  Wall-clock duration measurement is kept as an
unparameterized observation event. -/
def handle_request {υ2 β γ : Type} (crypto : CryptoDeps)
    (parseUri : String → Except String υ2) (req : Request Uri β)
    (state : AppState υ2 β γ) :
    Response (Sum γ (List Nat)) × List MetricEvent :=
  let path := req.uri.path
  match handle_request_inner crypto parseUri req state path with
  | .ok (response, username) =>
    let sm := parse_grpc_path path
    let grpc_status :=
      ((headerGet "grpc-status" response.headers).bind headerToStr).getD "0"
    ({ status := response.status, headers := response.headers,
       body := Sum.inl response.body },
     [.observeDuration,
      .incRequestsTotal username sm.1 sm.2 grpc_status])
  | .error e =>
    let sm := parse_grpc_path path
    let events :=
      match e with
      | .AuthMissing | .AuthInvalid | .AuthDenied _ =>
        [.incAuthFailures e.auth_failure_reason,
         .incRequestsTotal "_unauthenticated" sm.1 sm.2
           (toString e.grpc_status_code)]
      | .UpstreamConnect _ | .UpstreamRequest _ =>
        [.incUpstreamErrors,
         .incRequestsTotal "_error" sm.1 sm.2
           (toString e.grpc_status_code)]
      | _ => []
    ({ status := e.to_grpc_response.status,
       headers := e.to_grpc_response.headers,
       body := Sum.inr e.to_grpc_response.body },
     events)

/-! ## Concrete fixtures

Small concrete instantiations of the abstract dependencies, used to
evaluate the pipeline on closed inputs.  The string "YTpi" is the standard
base64 encoding of "a:b". -/

/-- Concrete crypto dependencies: decodes exactly the fixture token, and
accepts password "b" against stored hash "hash-a". -/
def testCrypto : CryptoDeps :=
  { b64decode := fun e => if e == "YTpi" then some [97, 58, 98] else none
    utf8decode := fun bs => if bs == [97, 58, 98] then some "a:b" else none
    parseHash := fun h => some { raw := h }
    verifyPassword := fun pw ph => pw == "b" && ph.raw == "hash-a" }

/-- Fixture configuration: upstream address and one user allowed one
call. -/
def testConfig : Config :=
  { upstream_address := "up:50051"
    users := [("a", { allowed_calls := ["pkg.Svc/Get"] })] }

/-- Fixture credential store with the single user "a". -/
def testCreds : Credentials := { users := [("a", "hash-a")] }

/-- An empty credential store. -/
def emptyCreds : Credentials := { users := [] }

/-- A URI parser that accepts everything (upstream URI type Unit). -/
def okParseUri : String → Except String Unit := fun _ => .ok ()

/-- A URI parser that rejects everything, echoing its input in the error:
makes the parsed string observable in the pipeline result. -/
def echoParseUri : String → Except String Unit := fun s => .error s

/-- A transport that answers every request with an empty 200 response
carrying grpc-status "0". -/
def okTransport : Request Unit Unit → Except TransportError (Response Unit) :=
  fun _ => .ok { status := 200, headers := [("grpc-status", [48])], body := () }

/-- A transport whose connection attempt is refused: the error is marked
as a connection-establishment failure. -/
def refusedTransport :
    Request Unit Unit → Except TransportError (Response Unit) :=
  fun _ => .error { connectFailure := true, msg := "tcp connect error: connection refused" }

/-- A request with valid credentials for user "a". -/
def authedReq : Request Uri Unit :=
  { method := "POST", uri := { path := "/pkg.Svc/Get", query := none }
    headers := [("authorization", stringBytes "Basic YTpi")], body := () }

/-- A request with no authorization header. -/
def noHeaderReq : Request Uri Unit :=
  { method := "POST", uri := { path := "/pkg.Svc/Get", query := none }
    headers := [], body := () }

/-- A request whose authorization header value holds a byte outside the
visible ASCII range. -/
def badHeaderReq : Request Uri Unit :=
  { method := "POST", uri := { path := "/pkg.Svc/Get", query := none }
    headers := [("authorization", [200])], body := () }

/-- A request whose URI carries a query string. -/
def queryReq : Request Uri Unit :=
  { method := "POST", uri := { path := "/pkg.Svc/Get", query := some "x=1" }
    headers := [], body := () }

/-- App state with authentication enabled and the ok transport. -/
def mainState : AppState Unit Unit Unit :=
  { config := testConfig, credentials := testCreds, skip_auth := false
    upstream_client := okTransport }

/-- App state in bypass mode with the ok transport. -/
def bypassState : AppState Unit Unit Unit :=
  { config := testConfig, credentials := testCreds, skip_auth := true
    upstream_client := okTransport }

/-- App state in bypass mode whose upstream connection is refused. -/
def refusedState : AppState Unit Unit Unit :=
  { config := testConfig, credentials := testCreds, skip_auth := true
    upstream_client := refusedTransport }

/-! ## Helper lemmas -/

/-- A list without the separator has no last-occurrence split. -/
theorem rsplitOnceAux_eq_none_of_not_mem (sep : Char) :
    ∀ l : List Char, sep ∉ l → rsplitOnceAux sep l = none := by
  intro l h
  induction l with
  | nil => rfl
  | cons c cs ih =>
    simp only [List.mem_cons, not_or] at h
    simp [rsplitOnceAux, ih h.2, Ne.symm h.1]

/-- A string that does not begin with a slash is left unchanged by slash
stripping. -/
theorem stripLeadingSlash_eq_self (p : String) (h : p.data.head? ≠ some '/') :
    stripLeadingSlash p = p := by
  unfold stripLeadingSlash
  split
  · rename_i rest heq
    exact absurd (by rw [heq]; rfl) h
  · rfl

/-- Slash stripping removes exactly one leading slash. -/
theorem stripLeadingSlash_cons (rest : List Char) :
    stripLeadingSlash (String.mk ('/' :: rest)) = String.mk rest := rfl

/-- C1: The status translation is a total function on the failure variants
and maps exactly per the fixed table: 16 for AuthMissing and AuthInvalid,
7 for AuthDenied, 14 for UpstreamConnect, and 13 for UpstreamRequest,
ConfigLoad, CredentialsLoad and ServerBind. -/
theorem grpc_status_code_fixed_table :
    ProxyError.AuthMissing.grpc_status_code = 16 ∧
    ProxyError.AuthInvalid.grpc_status_code = 16 ∧
    (∀ s : String, (ProxyError.AuthDenied s).grpc_status_code = 7) ∧
    (∀ s : String, (ProxyError.UpstreamConnect s).grpc_status_code = 14) ∧
    (∀ s : String, (ProxyError.UpstreamRequest s).grpc_status_code = 13) ∧
    (∀ s : String, (ProxyError.ConfigLoad s).grpc_status_code = 13) ∧
    (∀ s : String, (ProxyError.CredentialsLoad s).grpc_status_code = 13) ∧
    (∀ s : String, (ProxyError.ServerBind s).grpc_status_code = 13) := by
  refine ⟨rfl, rfl, ?_, ?_, ?_, ?_, ?_, ?_⟩ <;> intro s <;> rfl

/-- C8: Path parsing for metrics labels splits on the last slash:
"/pkg.Svc/Method" gives (pkg.Svc, Method), "/a/b/c" gives (a/b, c), and a
path containing no slash at all maps to itself with method "unknown". -/
theorem parse_grpc_path_spec :
    parse_grpc_path "/pkg.Svc/Method" = ("pkg.Svc", "Method") ∧
    parse_grpc_path "/a/b/c" = ("a/b", "c") ∧
    parse_grpc_path "noslash" = ("noslash", "unknown") ∧
    (∀ p : String, '/' ∉ p.data → parse_grpc_path p = (p, "unknown")) := by
  refine ⟨by decide, by decide, by decide, ?_⟩
  intro p h
  have hhead : p.data.head? ≠ some '/' := by
    cases hd : p.data with
    | nil => simp
    | cons c cs =>
      simp only [List.head?_cons, Option.some.injEq]
      intro hc
      injection hc with hc2
      exact h (by rw [hd, ← hc2]; exact List.mem_cons_self _ _)
  have hstrip : stripLeadingSlash p = p := stripLeadingSlash_eq_self p hhead
  simp only [parse_grpc_path, hstrip, rsplit_once,
    rsplitOnceAux_eq_none_of_not_mem '/' p.data h]

/-- Witness for C8 at a concrete slash-free path. -/
theorem parse_grpc_path_spec_witness :
    parse_grpc_path "health" = ("health", "unknown") :=
  parse_grpc_path_spec.2.2.2 "health" (by decide)

/-- C3: Authorization strips exactly one leading slash and then succeeds
precisely when the user has a policy entry whose allowed calls contain the
wildcard or the normalized path; in every other case, including an absent
policy entry, the failure is AuthDenied. -/
theorem authorize_spec (username grpc_path : String) (config : Config) :
    (authorize username grpc_path config = .ok () ↔
      ∃ uc : UserConfig, List.lookup username config.users = some uc ∧
        ("*" ∈ uc.allowed_calls ∨
          stripLeadingSlash grpc_path ∈ uc.allowed_calls)) ∧
    (authorize username grpc_path config = .ok () ∨
      ∃ d : String,
        authorize username grpc_path config = .error (.AuthDenied d)) ∧
    (∀ rest : List Char,
      stripLeadingSlash (String.mk ('/' :: rest)) = String.mk rest) ∧
    (∀ s : String, s.data.head? ≠ some '/' → stripLeadingSlash s = s) := by
  refine ⟨?_, ?_, stripLeadingSlash_cons, stripLeadingSlash_eq_self⟩
  · unfold authorize
    cases hlk : List.lookup username config.users with
    | none => simp [hlk]
    | some uc =>
      by_cases hany : uc.allowed_calls.any
          (fun allowed => allowed == "*" || allowed == stripLeadingSlash grpc_path) = true
      · simp only [hany, if_true]
        constructor
        · intro _
          simp only [List.any_eq_true, Bool.or_eq_true, beq_iff_eq] at hany
          obtain ⟨x, hx, hcase⟩ := hany
          refine ⟨uc, rfl, ?_⟩
          cases hcase with
          | inl hh => exact Or.inl (hh ▸ hx)
          | inr hh => exact Or.inr (hh ▸ hx)
        · intro _
          trivial
      · simp only [hany, if_false]
        constructor
        · intro hcontra
          exact absurd hcontra (by simp)
        · rintro ⟨uc2, huc2, hmem⟩
          injection huc2 with h2
          subst h2
          apply absurd _ hany
          simp only [List.any_eq_true, Bool.or_eq_true, beq_iff_eq]
          cases hmem with
          | inl hh => exact ⟨"*", hh, Or.inl rfl⟩
          | inr hh => exact ⟨_, hh, Or.inr rfl⟩
  · unfold authorize
    cases List.lookup username config.users with
    | none => exact Or.inr ⟨"no config for user '" ++ username ++ "'", rfl⟩
    | some uc =>
      by_cases hany : uc.allowed_calls.any
          (fun allowed => allowed == "*" || allowed == stripLeadingSlash grpc_path) = true
      · exact Or.inl (by simp [hany])
      · exact Or.inr ⟨"user '" ++ username ++ "' not allowed to call '" ++
          stripLeadingSlash grpc_path ++ "'", by simp [hany]⟩

/-- Witness for C3: the wildcard-free fixture policy allows the configured
call, denies another, and slash stripping behaves as stated on a concrete
path. -/
theorem authorize_spec_witness :
    authorize "a" "/pkg.Svc/Get" testConfig = .ok () ∧
    stripLeadingSlash (String.mk ('/' :: 'x' :: [])) = String.mk ('x' :: []) :=
  ⟨(authorize_spec "a" "/pkg.Svc/Get" testConfig).1.mpr
      ⟨{ allowed_calls := ["pkg.Svc/Get"] }, by decide, Or.inr (by decide)⟩,
   (authorize_spec "a" "/x" testConfig).2.2.1 ('x' :: [])⟩

/-- C2: With the Authorization header absent the pipeline fails with
AuthMissing; with a syntactically valid Basic header, an unknown username
or a failed password verification gives AuthInvalid (authenticate can in
fact never fail with AuthMissing), and success returns the verified
username. -/
theorem authenticate_spec {υ2 β γ : Type} (crypto : CryptoDeps)
    (parseUri : String → Except String υ2) (req : Request Uri β)
    (state : AppState υ2 β γ) (path : String) (credentials : Credentials)
    (header enc : String) (bytes : List Nat) (s u p : String) :
    (state.skip_auth = false →
      headerGet "authorization" req.headers = none →
      handle_request_inner crypto parseUri req state path =
        .error .AuthMissing) ∧
    (dropBasicTag header = some enc →
      crypto.b64decode (rustTrim enc) = some bytes →
      crypto.utf8decode bytes = some s →
      split_once ':' s = some (u, p) →
      (List.lookup u credentials.users = none →
        authenticate crypto.b64decode crypto.utf8decode crypto.parseHash
          crypto.verifyPassword header credentials = .error .AuthInvalid) ∧
      (∀ (sh : String) (ph : ParsedHash),
        List.lookup u credentials.users = some sh →
        crypto.parseHash sh = some ph →
        (crypto.verifyPassword p ph = false →
          authenticate crypto.b64decode crypto.utf8decode crypto.parseHash
            crypto.verifyPassword header credentials = .error .AuthInvalid) ∧
        (crypto.verifyPassword p ph = true →
          authenticate crypto.b64decode crypto.utf8decode crypto.parseHash
            crypto.verifyPassword header credentials = .ok u))) ∧
    (∀ e : ProxyError,
      authenticate crypto.b64decode crypto.utf8decode crypto.parseHash
        crypto.verifyPassword header credentials = .error e →
      e = .AuthInvalid) := by
  refine ⟨?_, ?_, ?_⟩
  · intro hskip hget
    unfold handle_request_inner auth_stage
    simp [hskip, hget]
  · intro h1 h2 h3 h4
    constructor
    · intro hlk
      unfold authenticate
      simp only [h1, h2, h3, h4, hlk]
    · intro sh ph hlk hph
      constructor
      · intro hv
        unfold authenticate
        simp only [h1, h2, h3, h4, hlk, hph, hv]
        simp
      · intro hv
        unfold authenticate
        simp only [h1, h2, h3, h4, hlk, hph, hv]
        simp
  · intro e he
    unfold authenticate at he
    repeat' split at he
    all_goals
      first
        | exact (Except.error.inj he).symm
        | exact Except.noConfusion he

/-- Witness for C2: the concrete fixtures exercise the unknown-user
failure, the successful verification, and the absent-header failure. -/
theorem authenticate_spec_witness :
    authenticate testCrypto.b64decode testCrypto.utf8decode
      testCrypto.parseHash testCrypto.verifyPassword "Basic YTpi" emptyCreds =
      .error .AuthInvalid ∧
    authenticate testCrypto.b64decode testCrypto.utf8decode
      testCrypto.parseHash testCrypto.verifyPassword "Basic YTpi" testCreds =
      .ok "a" ∧
    handle_request_inner testCrypto okParseUri noHeaderReq mainState
      "/pkg.Svc/Get" = .error .AuthMissing := by
  refine ⟨?_, ?_, ?_⟩
  · exact ((authenticate_spec testCrypto okParseUri noHeaderReq mainState
      "/pkg.Svc/Get" emptyCreds "Basic YTpi" "YTpi" [97, 58, 98] "a:b" "a"
      "b").2.1 (by decide) (by decide) (by decide) (by decide)).1 (by decide)
  · exact (((authenticate_spec testCrypto okParseUri noHeaderReq mainState
      "/pkg.Svc/Get" testCreds "Basic YTpi" "YTpi" [97, 58, 98] "a:b" "a"
      "b").2.1 (by decide) (by decide) (by decide) (by decide)).2 "hash-a"
      { raw := "hash-a" } (by decide) (by decide)).2 (by decide)
  · exact (authenticate_spec testCrypto okParseUri noHeaderReq mainState
      "/pkg.Svc/Get" testCreds "Basic YTpi" "YTpi" [97, 58, 98] "a:b" "a"
      "b").1 rfl (by decide)

/-- C10: an Authorization header whose value has a byte outside the
visible ASCII range is treated like an absent header: the pipeline fails
with AuthMissing and the failure is counted under reason missing. -/
theorem unreadable_auth_header_is_missing {υ2 β γ : Type}
    (crypto : CryptoDeps) (parseUri : String → Except String υ2)
    (req : Request Uri β) (state : AppState υ2 β γ) (bs : List Nat) :
    state.skip_auth = false →
    headerGet "authorization" req.headers = some bs →
    headerToStr bs = none →
    handle_request_inner crypto parseUri req state req.uri.path =
      .error .AuthMissing ∧
    (handle_request crypto parseUri req state).2 =
      [.incAuthFailures "missing",
       .incRequestsTotal "_unauthenticated" (parse_grpc_path req.uri.path).1
         (parse_grpc_path req.uri.path).2 "16"] := by
  intro hskip hget hstr
  have hinner : handle_request_inner crypto parseUri req state req.uri.path =
      .error .AuthMissing := by
    unfold handle_request_inner auth_stage
    simp [hskip, hget, hstr]
  refine ⟨hinner, ?_⟩
  simp only [handle_request, hinner]
  rfl

/-- Witness for C10 at a header value containing byte 200. -/
theorem unreadable_auth_header_is_missing_witness :
    handle_request_inner testCrypto okParseUri badHeaderReq mainState
      badHeaderReq.uri.path = .error .AuthMissing ∧
    (handle_request testCrypto okParseUri badHeaderReq mainState).2 =
      [.incAuthFailures "missing",
       .incRequestsTotal "_unauthenticated"
         (parse_grpc_path badHeaderReq.uri.path).1
         (parse_grpc_path badHeaderReq.uri.path).2 "16"] :=
  unreadable_auth_header_is_missing testCrypto okParseUri badHeaderReq
    mainState [200] rfl (by decide) (by decide)

set_option maxRecDepth 8192 in
/-- A byte of the pass-through class encodes to a character that is not
the percent sign and whose code point is the byte itself. -/
theorem unreserved_char_spec :
    ∀ b : Fin 256, isUnreservedByte b.val = true →
      (Char.ofNat b.val).toNat = b.val ∧ ¬ Char.ofNat b.val = '%' := by
  decide

/-- Decoding inverts the uppercase hexadecimal digit. -/
theorem hexVal_hexDigit : ∀ n : Fin 16, hexVal (hexDigit n.val) = some n.val := by
  decide

/-- Unfolding of the decoder on a non-percent head character. -/
theorem percentDecode_cons_nonpct (c : Char) (l : List Char) (hc : ¬ c = '%') :
    percentDecode (c :: l) =
      (percentDecode l).map (fun tail => c.toNat :: tail) := by
  rw [percentDecode.eq_def]
  simp only [hc, if_false]
  cases percentDecode l <;> rfl

/-- Unfolding of the decoder on a percent escape. -/
theorem percentDecode_pct (h l : Char) (rest2 : List Char) :
    percentDecode ('%' :: h :: l :: rest2) =
      match hexVal h, hexVal l, percentDecode rest2 with
      | some hi, some lo, some tail => some ((16 * hi + lo) :: tail)
      | _, _, _ => none := rfl

/-- Percent-decoding inverts `percent_encode` byte-exactly. -/
theorem percentDecode_encode :
    ∀ bs : List Nat, (∀ b ∈ bs, b < 256) →
      percentDecode (bs.flatMap encodeByte) = some bs := by
  intro bs h
  induction bs with
  | nil => rfl
  | cons b rest ih =>
    have hb : b < 256 := h b (List.mem_cons_self _ _)
    have hrest := ih (fun x hx => h x (List.mem_cons_of_mem _ hx))
    rw [List.flatMap_cons]
    by_cases hu : isUnreservedByte b = true
    · have hchar := unreserved_char_spec ⟨b, hb⟩ hu
      have he : encodeByte b = [Char.ofNat b] := by simp [encodeByte, hu]
      rw [he, List.cons_append, List.nil_append,
        percentDecode_cons_nonpct _ _ hchar.2, hrest]
      simp [hchar.1]
    · by_cases hs : b = 32
      · subst hs
        have he : encodeByte 32 = ['%', '2', '0'] := by decide
        rw [he]
        simp only [List.cons_append, List.nil_append]
        rw [percentDecode_pct]
        rw [(by decide : hexVal '2' = some 2), (by decide : hexVal '0' = some 0),
          hrest]
      · have he : encodeByte b = ['%', hexDigit (b / 16), hexDigit (b % 16)] := by
          simp [encodeByte, hu, hs]
        rw [he]
        simp only [List.cons_append, List.nil_append]
        rw [percentDecode_pct]
        rw [hexVal_hexDigit ⟨b / 16, by omega⟩,
          hexVal_hexDigit ⟨b % 16, by omega⟩, hrest]
        have hval : 16 * (b / 16) + b % 16 = b := by omega
        simp [hval]

/-- C7: percent_encode maps pass-through bytes to themselves, space to the
three-character escape, and every other byte to an uppercase two-digit
escape; standard percent-decoding recovers the original byte string, so
the encoding is injective. -/
theorem percent_encode_spec :
    (∀ b : Nat, b < 256 →
      ((65 ≤ b ∧ b ≤ 90) ∨ (97 ≤ b ∧ b ≤ 122) ∨ (48 ≤ b ∧ b ≤ 57) ∨
        b = 45 ∨ b = 95 ∨ b = 46 ∨ b = 126) →
      encodeByte b = [Char.ofNat b]) ∧
    encodeByte 32 = ['%', '2', '0'] ∧
    (∀ b : Nat, b < 256 →
      ¬((65 ≤ b ∧ b ≤ 90) ∨ (97 ≤ b ∧ b ≤ 122) ∨ (48 ≤ b ∧ b ≤ 57) ∨
        b = 45 ∨ b = 95 ∨ b = 46 ∨ b = 126) →
      b ≠ 32 →
      encodeByte b = ['%', hexDigit (b / 16), hexDigit (b % 16)]) ∧
    (∀ m : Fin 16, hexDigit m.val ∈
      ('0' :: '1' :: '2' :: '3' :: '4' :: '5' :: '6' :: '7' :: '8' :: '9' ::
        'A' :: 'B' :: 'C' :: 'D' :: 'E' :: 'F' :: [])) ∧
    (∀ bs : List Nat, (∀ b ∈ bs, b < 256) →
      percentDecode (percent_encode bs).data = some bs) ∧
    (∀ bs1 bs2 : List Nat, (∀ b ∈ bs1, b < 256) → (∀ b ∈ bs2, b < 256) →
      percent_encode bs1 = percent_encode bs2 → bs1 = bs2) := by
  have hclass : ∀ b : Nat,
      (((65 ≤ b ∧ b ≤ 90) ∨ (97 ≤ b ∧ b ≤ 122) ∨ (48 ≤ b ∧ b ≤ 57) ∨
        b = 45 ∨ b = 95 ∨ b = 46 ∨ b = 126) ↔ isUnreservedByte b = true) := by
    intro b
    simp only [isUnreservedByte, Bool.or_eq_true, Bool.and_eq_true,
      decide_eq_true_eq, beq_iff_eq]
    tauto
  refine ⟨?_, by decide, ?_, by decide, ?_, ?_⟩
  · intro b _ hcls
    simp [encodeByte, (hclass b).mp hcls]
  · intro b _ hcls hs
    have hu : ¬ isUnreservedByte b = true := fun hc => hcls ((hclass b).mpr hc)
    simp [encodeByte, hu, hs]
  · intro bs h
    exact percentDecode_encode bs h
  · intro bs1 bs2 h1 h2 heq
    have hd : percentDecode (percent_encode bs1).data =
        percentDecode (percent_encode bs2).data := by rw [heq]
    have e1 : (percent_encode bs1).data = bs1.flatMap encodeByte := rfl
    have e2 : (percent_encode bs2).data = bs2.flatMap encodeByte := rfl
    rw [e1, e2, percentDecode_encode bs1 h1, percentDecode_encode bs2 h2] at hd
    exact Option.some.inj hd

/-- Witness for C7 on a mixed input: letters, a space, punctuation and the
three UTF-8 bytes of a non-ASCII character. -/
theorem percent_encode_spec_witness :
    percentDecode
        (percent_encode (72 :: 105 :: 32 :: 226 :: 130 :: 172 :: 33 :: [])).data =
      some (72 :: 105 :: 32 :: 226 :: 130 :: 172 :: 33 :: []) :=
  percent_encode_spec.2.2.2.2.1 (72 :: 105 :: 32 :: 226 :: 130 :: 172 :: 33 :: [])
    (by decide)

/-- C4: the upstream request drops the Authorization header (also in
bypass mode, since the construction is unconditional) and forwards the
method, the remaining headers and the body unchanged; the transport is
invoked on exactly this request. -/
theorem upstream_request_strips_authorization {υ2 β γ : Type}
    (crypto : CryptoDeps) (parseUri : String → Except String υ2)
    (req : Request Uri β) (state : AppState υ2 β γ) (path : String)
    (upstream_uri : υ2) (username : String) :
    headerGet "authorization"
      (build_upstream_request req upstream_uri).headers = none ∧
    (build_upstream_request req upstream_uri).headers =
      req.headers.filter (fun p => p.1 != "authorization") ∧
    (build_upstream_request req upstream_uri).method = req.method ∧
    (build_upstream_request req upstream_uri).body = req.body ∧
    (auth_stage crypto req state.config state.credentials state.skip_auth
        path = .ok username →
      parseUri (rewrittenTarget state.config.upstream_address path) =
        .ok upstream_uri →
      handle_request_inner crypto parseUri req state path =
        match state.upstream_client (build_upstream_request req upstream_uri) with
        | .error e => .error (.UpstreamRequest e.msg)
        | .ok response => .ok (response, username)) := by
  refine ⟨?_, rfl, rfl, rfl, ?_⟩
  · simp only [build_upstream_request, headerRemove, headerGet,
      Option.map_eq_none', List.find?_eq_none, List.mem_filter]
    rintro x ⟨-, hx⟩
    simpa using hx
  · intro hauth hparse
    unfold handle_request_inner
    rw [hauth, hparse]

/-- Witness for C4 on the authenticated fixture request. -/
theorem upstream_request_strips_authorization_witness :
    headerGet "authorization"
      (build_upstream_request authedReq ()).headers = none ∧
    handle_request_inner testCrypto okParseUri authedReq mainState
      "/pkg.Svc/Get" =
      match mainState.upstream_client (build_upstream_request authedReq ()) with
      | .error e => .error (.UpstreamRequest e.msg)
      | .ok response => .ok (response, "a") :=
  ⟨(upstream_request_strips_authorization testCrypto okParseUri authedReq
      mainState "/pkg.Svc/Get" () "a").1,
   (upstream_request_strips_authorization testCrypto okParseUri authedReq
      mainState "/pkg.Svc/Get" () "a").2.2.2.2 rfl rfl⟩

/-- C5 counterexample: on a request whose URI carries a query string, the
string the pipeline hands to URI parsing (observable through the echo
parser) is built from the path component only, and differs from the target
the claim prescribes, which keeps the query. -/
theorem rewritten_target_drops_query :
    handle_request_inner testCrypto echoParseUri queryReq bypassState
      queryReq.uri.path =
      .error (.UpstreamConnect
        "invalid upstream URI: http://up:50051/pkg.Svc/Get") ∧
    queryReq.uri.pathAndQuery = "/pkg.Svc/Get?x=1" ∧
    rewrittenTarget bypassState.config.upstream_address queryReq.uri.path ≠
      "http://" ++ bypassState.config.upstream_address ++
        queryReq.uri.pathAndQuery := by
  exact ⟨rfl, rfl, by decide⟩

/-- C5 amended: the forwarded target is exactly the scheme, the upstream
address and the path COMPONENT of the original URI; the query string is
dropped, so the original claim holds only for query-free requests. -/
theorem rewritten_target_path_only {υ2 β γ : Type} (crypto : CryptoDeps)
    (parseUri : String → Except String υ2) (req : Request Uri β)
    (state : AppState υ2 β γ) (username : String) :
    rewrittenTarget state.config.upstream_address req.uri.path =
      "http://" ++ state.config.upstream_address ++ req.uri.path ∧
    (req.uri.query = none →
      rewrittenTarget state.config.upstream_address req.uri.path =
        "http://" ++ state.config.upstream_address ++ req.uri.pathAndQuery) ∧
    (auth_stage crypto req state.config state.credentials state.skip_auth
        req.uri.path = .ok username →
      handle_request_inner crypto parseUri req state req.uri.path =
        match parseUri
            ("http://" ++ state.config.upstream_address ++ req.uri.path) with
        | .error e => .error (.UpstreamConnect ("invalid upstream URI: " ++ e))
        | .ok upstream_uri =>
          match state.upstream_client
              (build_upstream_request req upstream_uri) with
          | .error e2 => .error (.UpstreamRequest e2.msg)
          | .ok response => .ok (response, username)) := by
  refine ⟨rfl, ?_, ?_⟩
  · intro hq
    simp [Uri.pathAndQuery, hq, rewrittenTarget]
  · intro hauth
    unfold handle_request_inner
    rw [hauth]
    rfl

/-- Witness for the amended C5 in bypass mode on the query-carrying
request. -/
theorem rewritten_target_path_only_witness :
    rewrittenTarget bypassState.config.upstream_address queryReq.uri.path =
      "http://" ++ bypassState.config.upstream_address ++ queryReq.uri.path ∧
    handle_request_inner testCrypto okParseUri queryReq bypassState
      queryReq.uri.path =
      match okParseUri
          ("http://" ++ bypassState.config.upstream_address ++
            queryReq.uri.path) with
      | .error e => .error (.UpstreamConnect ("invalid upstream URI: " ++ e))
      | .ok upstream_uri =>
        match bypassState.upstream_client
            (build_upstream_request queryReq upstream_uri) with
        | .error e2 => .error (.UpstreamRequest e2.msg)
        | .ok response => .ok (response, "Anonymous") :=
  ⟨(rewritten_target_path_only testCrypto okParseUri queryReq bypassState
      "Anonymous").1,
   (rewritten_target_path_only testCrypto okParseUri queryReq bypassState
      "Anonymous").2.2 rfl⟩

/-- C6 counterexample: a transport error explicitly flagged as a failure
to establish the connection still maps to UpstreamRequest with status 13,
never UpstreamConnect with 14. -/
theorem connect_failure_maps_to_13 :
    refusedState.upstream_client (build_upstream_request noHeaderReq ()) =
      .error { connectFailure := true,
               msg := "tcp connect error: connection refused" } ∧
    handle_request_inner testCrypto okParseUri noHeaderReq refusedState
      "/pkg.Svc/Get" =
      .error (.UpstreamRequest "tcp connect error: connection refused") ∧
    (ProxyError.UpstreamRequest
      "tcp connect error: connection refused").grpc_status_code = 13 ∧
    (∀ d : String,
      handle_request_inner testCrypto okParseUri noHeaderReq refusedState
        "/pkg.Svc/Get" ≠ .error (.UpstreamConnect d)) ∧
    (13 : Nat) ≠ 14 := by
  refine ⟨rfl, rfl, rfl, ?_, by decide⟩
  intro d h
  exact ProxyError.noConfusion (Except.error.inj h)

/-- C6 amended: UpstreamConnect arises exactly when the rewritten target
fails to parse as a URI (status 14); every transport error, including a
failure to establish the connection, maps to UpstreamRequest (status
13). -/
theorem upstream_error_classification {υ2 β γ : Type} (crypto : CryptoDeps)
    (parseUri : String → Except String υ2) (req : Request Uri β)
    (state : AppState υ2 β γ) (path : String) (username : String)
    (e : String) (upstream_uri : υ2) (te : TransportError) :
    auth_stage crypto req state.config state.credentials state.skip_auth
      path = .ok username →
    (parseUri (rewrittenTarget state.config.upstream_address path) =
        .error e →
      handle_request_inner crypto parseUri req state path =
        .error (.UpstreamConnect ("invalid upstream URI: " ++ e)) ∧
      (ProxyError.UpstreamConnect
        ("invalid upstream URI: " ++ e)).grpc_status_code = 14) ∧
    (parseUri (rewrittenTarget state.config.upstream_address path) =
        .ok upstream_uri →
      state.upstream_client (build_upstream_request req upstream_uri) =
        .error te →
      handle_request_inner crypto parseUri req state path =
        .error (.UpstreamRequest te.msg) ∧
      (ProxyError.UpstreamRequest te.msg).grpc_status_code = 13) := by
  intro hauth
  constructor
  · intro hp
    refine ⟨?_, rfl⟩
    unfold handle_request_inner
    rw [hauth, hp]
  · intro hp ht
    refine ⟨?_, rfl⟩
    have hstep : handle_request_inner crypto parseUri req state path =
        match state.upstream_client (build_upstream_request req upstream_uri) with
        | .error e2 => .error (.UpstreamRequest e2.msg)
        | .ok response => .ok (response, username) := by
      unfold handle_request_inner
      rw [hauth, hp]
    rw [hstep, ht]

/-- Witness for the amended C6: a parse failure gives 14, a refused
connection gives 13. -/
theorem upstream_error_classification_witness :
    (handle_request_inner testCrypto echoParseUri noHeaderReq bypassState
        "/pkg.Svc/Get" =
      .error (.UpstreamConnect
        ("invalid upstream URI: " ++ "http://up:50051/pkg.Svc/Get")) ∧
      (ProxyError.UpstreamConnect
        ("invalid upstream URI: " ++
          "http://up:50051/pkg.Svc/Get")).grpc_status_code = 14) ∧
    (handle_request_inner testCrypto okParseUri noHeaderReq refusedState
        "/pkg.Svc/Get" =
      .error (.UpstreamRequest "tcp connect error: connection refused") ∧
      (ProxyError.UpstreamRequest
        "tcp connect error: connection refused").grpc_status_code = 13) :=
  ⟨(upstream_error_classification testCrypto echoParseUri noHeaderReq
      bypassState "/pkg.Svc/Get" "Anonymous"
      "http://up:50051/pkg.Svc/Get" ()
      { connectFailure := true, msg := "x" } rfl).1 rfl,
   (upstream_error_classification testCrypto okParseUri noHeaderReq
      refusedState "/pkg.Svc/Get" "Anonymous" "" ()
      { connectFailure := true,
        msg := "tcp connect error: connection refused" } rfl).2 rfl rfl⟩

/-- Every failure of `authenticate` is `AuthInvalid`. -/
theorem authenticate_error_invalid (b64decode : String → Option (List Nat))
    (utf8decode : List Nat → Option String)
    (parseHash : String → Option ParsedHash)
    (verifyPassword : String → ParsedHash → Bool)
    (auth_header : String) (credentials : Credentials) :
    ∀ e : ProxyError,
      authenticate b64decode utf8decode parseHash verifyPassword auth_header
        credentials = .error e → e = .AuthInvalid := by
  intro e he
  unfold authenticate at he
  repeat' split at he
  all_goals
    first
      | exact (Except.error.inj he).symm
      | exact Except.noConfusion he

/-- Every failure of `authorize` is an `AuthDenied`. -/
theorem authorize_error_denied (username grpc_path : String)
    (config : Config) :
    ∀ e : ProxyError, authorize username grpc_path config = .error e →
      ∃ d, e = .AuthDenied d := by
  intro e he
  unfold authorize at he
  dsimp only at he
  repeat' split at he
  all_goals
    first
      | exact ⟨_, (Except.error.inj he).symm⟩
      | exact Except.noConfusion he

/-- Every failure of the authentication stage is AuthMissing, AuthInvalid
or AuthDenied. -/
theorem auth_stage_error_shape {β : Type} (crypto : CryptoDeps)
    (req : Request Uri β) (config : Config) (credentials : Credentials)
    (skip_auth : Bool) (path : String) :
    ∀ e : ProxyError,
      auth_stage crypto req config credentials skip_auth path = .error e →
      e = .AuthMissing ∨ e = .AuthInvalid ∨ ∃ d, e = .AuthDenied d := by
  intro e he
  unfold auth_stage at he
  repeat' split at he
  all_goals
    first
      | exact Except.noConfusion he
      | exact Or.inl (Except.error.inj he).symm
      | (rename_i e2 heq
         exact Or.inr (Or.inl ((Except.error.inj he).symm.trans
           (authenticate_error_invalid _ _ _ _ _ _ e2 heq))))
      | (rename_i e3 heq
         obtain ⟨d, hd⟩ := authorize_error_denied _ _ _ e3 heq
         exact Or.inr (Or.inr ⟨d, (Except.error.inj he).symm.trans hd⟩))

/-- Every failure of `handle_request_inner` is one of the five per-request
error variants; the startup variants never occur. -/
theorem handle_request_inner_error_shape {υ2 β γ : Type}
    (crypto : CryptoDeps) (parseUri : String → Except String υ2)
    (req : Request Uri β) (state : AppState υ2 β γ) (path : String) :
    ∀ e : ProxyError,
      handle_request_inner crypto parseUri req state path = .error e →
      e = .AuthMissing ∨ e = .AuthInvalid ∨ (∃ d, e = .AuthDenied d) ∨
      (∃ d, e = .UpstreamConnect d) ∨ (∃ d, e = .UpstreamRequest d) := by
  intro e he
  unfold handle_request_inner at he
  repeat' split at he
  all_goals
    first
      | exact Except.noConfusion he
      | (rename_i e0 heq
         rcases auth_stage_error_shape crypto req state.config
            state.credentials state.skip_auth path e0 heq with
            h | h | ⟨d, hd⟩
         · exact Or.inl ((Except.error.inj he).symm.trans h)
         · exact Or.inr (Or.inl ((Except.error.inj he).symm.trans h))
         · exact Or.inr (Or.inr (Or.inl
             ⟨d, (Except.error.inj he).symm.trans hd⟩)))
      | exact Or.inr (Or.inr (Or.inr (Or.inl
          ⟨_, (Except.error.inj he).symm⟩)))
      | exact Or.inr (Or.inr (Or.inr (Or.inr
          ⟨_, (Except.error.inj he).symm⟩)))

/-- C9: every handled request yields exactly one increment of
requests_total; successes are labelled with the username and the response
status header (default "0"), auth and authz failures with the
pseudo-user, the mapped code and one auth-failure-reason increment, and
upstream failures with the error pseudo-user, the mapped code and one
upstream-error increment. -/
theorem metrics_per_request {υ2 β γ : Type} (crypto : CryptoDeps)
    (parseUri : String → Except String υ2) (req : Request Uri β)
    (state : AppState υ2 β γ) :
    ((handle_request crypto parseUri req state).2.countP
        MetricEvent.isIncRequests = 1) ∧
    (∀ (response : Response γ) (username : String),
      handle_request_inner crypto parseUri req state req.uri.path =
        .ok (response, username) →
      (handle_request crypto parseUri req state).2 =
        [.observeDuration,
         .incRequestsTotal username (parse_grpc_path req.uri.path).1
           (parse_grpc_path req.uri.path).2
           (((headerGet "grpc-status" response.headers).bind
               headerToStr).getD "0")]) ∧
    (∀ e : ProxyError,
      handle_request_inner crypto parseUri req state req.uri.path =
        .error e →
      (e = .AuthMissing ∨ e = .AuthInvalid ∨ (∃ d, e = .AuthDenied d)) →
      (handle_request crypto parseUri req state).2 =
        [.incAuthFailures e.auth_failure_reason,
         .incRequestsTotal "_unauthenticated"
           (parse_grpc_path req.uri.path).1 (parse_grpc_path req.uri.path).2
           (toString e.grpc_status_code)]) ∧
    (∀ e : ProxyError,
      handle_request_inner crypto parseUri req state req.uri.path =
        .error e →
      ((∃ d, e = .UpstreamConnect d) ∨ (∃ d, e = .UpstreamRequest d)) →
      (handle_request crypto parseUri req state).2 =
        [.incUpstreamErrors,
         .incRequestsTotal "_error" (parse_grpc_path req.uri.path).1
           (parse_grpc_path req.uri.path).2
           (toString e.grpc_status_code)]) ∧
    (ProxyError.AuthMissing.auth_failure_reason = "missing" ∧
     ProxyError.AuthInvalid.auth_failure_reason = "invalid" ∧
     ∀ d : String, (ProxyError.AuthDenied d).auth_failure_reason =
       "denied") := by
  refine ⟨?_, ?_, ?_, ?_, rfl, rfl, fun d => rfl⟩
  · cases hres : handle_request_inner crypto parseUri req state req.uri.path with
    | ok pair =>
      simp only [handle_request, hres]
      rfl
    | error e =>
      rcases handle_request_inner_error_shape crypto parseUri req state
          req.uri.path e hres with
          h | h | ⟨d, h⟩ | ⟨d, h⟩ | ⟨d, h⟩ <;>
        subst h <;> simp only [handle_request, hres] <;> rfl
  · intro response username hres
    simp only [handle_request, hres]
  · intro e hres hshape
    rcases hshape with h | h | ⟨d, h⟩ <;>
      subst h <;> simp only [handle_request, hres]
  · intro e hres hshape
    rcases hshape with ⟨d, h⟩ | ⟨d, h⟩ <;>
      subst h <;> simp only [handle_request, hres]

/-- Witness for C9: a successful request and an unauthenticated request on
the fixtures produce exactly the stated event lists. -/
theorem metrics_per_request_witness :
    (handle_request testCrypto okParseUri authedReq mainState).2 =
      [.observeDuration, .incRequestsTotal "a" "pkg.Svc" "Get" "0"] ∧
    (handle_request testCrypto okParseUri noHeaderReq mainState).2 =
      [.incAuthFailures "missing",
       .incRequestsTotal "_unauthenticated" "pkg.Svc" "Get" "16"] :=
  ⟨(metrics_per_request testCrypto okParseUri authedReq mainState).2.1
      { status := 200, headers := [("grpc-status", [48])], body := () }
      "a" rfl,
   (metrics_per_request testCrypto okParseUri noHeaderReq mainState).2.2.1
      .AuthMissing rfl (Or.inl rfl)⟩

end GrpcProxier
